import Mathlib

/-!
Branch-admin UI controller (`staticfiles/empresa/js/sucursal_admin.js`)

A shallow embedding of the script's five handler functions, its four promise
callbacks and its document-level click listener.

The browser is modelled by what the script reads and writes:

* `Dom` holds what the script can observe of the document: the inline
  `display` of the element with id `sucursalFormModal`, the content of the
  element with id `sucursalForm`, and the `value`s of the elements matching
  `[name=csrfmiddlewaretoken]`, in document order, split into those before the
  content of `#sucursalForm`, those inside it and those after it.  A missing
  element is `none` (or the empty list): `getElementById`/`querySelector` then
  return `null` and the property access throws a `TypeError`.
* The content of `#sucursalForm` is a `Fragment`: a tree of nodes seen through
  its serialisation (what `innerHTML` reads back) and the values of its
  elements named `csrfmiddlewaretoken`.  Assigning to `innerHTML` hands the
  text to the HTML parser of the browser, which is not part of the script; a
  `Response` therefore carries, next to its body, the fragment the parser
  builds from that body, as it carries the value `JSON.parse` builds from it.
  The serialisation of that fragment need not be the body: the body `<form>`
  parses to a `form` element, which reads back as `<form></form>`.
* Everything the script does to the outside is an `Effect`, emitted in program
  order: a `confirm` prompt, a call of `fetch` together with the callback
  chained on it, a call of `location.reload()`, an uncaught exception.
* `World` adds the requests still in flight; `step` runs one event of the
  browser's event loop (a handler call, a click, the arrival of a response).

The answer of the user to `confirm` is an argument of the handler; the prompt
itself is recorded as an effect.  An `id` is given by the string the template
literal interpolates.  A response is delivered when its body is complete, which
is when the second `.then` callback of the chain runs.
-/

namespace SucursalAdmin

/-! ## JavaScript values (the result of `response.json()`) -/

/-- A value produced by `JSON.parse`, plus `undefined` (the result of reading a
property that is not there).  `num q` is a number of exact value `q`; the
members of an object are kept in the order of the text. -/
inductive JSValue where
  | undefined
  | null
  | bool (b : Bool)
  | num (q : ℚ)
  | str (s : String)
  | arr (items : List JSValue)
  | obj (members : List (String × JSValue))

/-- The name of an exception the script leaves uncaught. -/
inductive JSError where
  | typeError
  | syntaxError
  deriving DecidableEq, Repr

/-- ToBoolean: `undefined`, `null`, `false`, `0`, and `""` are falsy, every
other value (arrays and objects included) is truthy. -/
def JSValue.truthy : JSValue → Bool
  | .undefined => false
  | .null => false
  | .bool b => b
  | .num q => decide (q ≠ 0)
  | .str s => decide (s ≠ "")
  | .arr _ => true
  | .obj _ => true

/-- Own property of a parsed object: `JSON.parse` keeps the last member of a
repeated key. -/
def lookupMember (key : String) : List (String × JSValue) → JSValue
  | [] => .undefined
  | (k, v) :: rest =>
    match lookupMember key rest with
    | .undefined => if k = key then v else .undefined
    | found => found

/-- The property read `data.success`: a `TypeError` on `null` and `undefined`,
the member of an object, `undefined` on every other value. -/
def JSValue.getProp (data : JSValue) (key : String) : Except JSError JSValue :=
  match data with
  | .undefined => .error .typeError
  | .null => .error .typeError
  | .obj members => .ok (lookupMember key members)
  | _ => .ok .undefined

/-! ## Document, requests, effects -/

/-- The children of an element, as the script can observe them. -/
structure Fragment where
  /-- The serialisation of the nodes: what `innerHTML` reads back. -/
  innerHTML : String
  /-- The `value` of each element matching `[name=csrfmiddlewaretoken]` among
  the nodes, in document order. -/
  csrfValues : List String
  deriving DecidableEq, Repr

/-- The part of the document the script reads and writes.  The element
`#sucursalFormModal` lies outside the content of `#sucursalForm` (it is the
modal that holds the form), so replacing that content leaves it in place. -/
structure Dom where
  /-- The `style.display` of `#sucursalFormModal`; `none` without the element. -/
  modalDisplay : Option String
  /-- The content of `#sucursalForm`; `none` without the element. -/
  form : Option Fragment
  /-- The `value` of each element matching `[name=csrfmiddlewaretoken]` that
  comes before the content of `#sucursalForm` in document order (all of them
  when there is no such element). -/
  csrfBefore : List String
  /-- The `value` of each matching element that comes after that content. -/
  csrfAfter : List String
  deriving DecidableEq, Repr

/-- The property read `document.getElementById('sucursalForm').innerHTML`;
`none` without the element. -/
def Dom.formHTML (d : Dom) : Option String :=
  match d.form with
  | none => none
  | some content => some content.innerHTML

/-- The `value` of each element matching `[name=csrfmiddlewaretoken]`, in
document order; `querySelector` returns the first. -/
def Dom.csrfValues (d : Dom) : List String :=
  match d.form with
  | none => d.csrfBefore ++ d.csrfAfter
  | some content => d.csrfBefore ++ content.csrfValues ++ d.csrfAfter

/-- The second argument of `fetch`. -/
structure RequestInit where
  method : Option String
  headers : List (String × String)
  deriving DecidableEq, Repr

/-- The request a call of `fetch` issues. -/
structure Request where
  url : String
  method : String
  headers : List (String × String)
  deriving DecidableEq, Repr

/-- The four promise chains of the script, named by the function that builds
them. -/
inductive Callback where
  | showSucursalForm
  | editSucursal
  | desativarSucursal
  | ativarSucursal
  deriving DecidableEq, Repr

/-- What the script does to the outside, in program order. -/
inductive Effect where
  | confirm (message : String)
  | fetch (request : Request) (callback : Callback)
  | reload
  | uncaught (error : JSError)
  deriving DecidableEq, Repr

/-- A response: its body as text, the body parsed as JSON (`none` when it is
not JSON, so that `response.json()` rejects), and the nodes the HTML parser
builds from the body inside `#sucursalForm`. -/
structure Response where
  body : String
  parsed : Option JSValue
  fragment : Fragment

/-- The call `fetch(url, init)`: the method defaults to `GET`, the headers to
none. -/
def fetch (url : String) (init : Option RequestInit) (callback : Callback) : Effect :=
  match init with
  | none => .fetch { url := url, method := "GET", headers := [] } callback
  | some i => .fetch { url := url, method := i.method.getD "GET", headers := i.headers } callback

/-! ## The handler functions -/

/-- Source lines 1-9. -/
def showSucursalForm (d : Dom) : Dom × List Effect :=
  match d.modalDisplay with
  | none => (d, [.uncaught .typeError])
  | some _ =>
    ({ d with modalDisplay := some "block" },
      [fetch "/admin/empresa/sucursal/add/?_to_field=id" none .showSucursalForm])

/-- Source lines 11-13. -/
def hideSucursalForm (d : Dom) : Dom × List Effect :=
  match d.modalDisplay with
  | none => (d, [.uncaught .typeError])
  | some _ => ({ d with modalDisplay := some "none" }, [])

/-- Source lines 15-23. -/
def editSucursal (id : String) (d : Dom) : Dom × List Effect :=
  match d.modalDisplay with
  | none => (d, [.uncaught .typeError])
  | some _ =>
    ({ d with modalDisplay := some "block" },
      [fetch ("/admin/empresa/sucursal/" ++ id ++ "/change/?_to_field=id") none .editSucursal])

/-- Source lines 25-41; `answer` is what `confirm` returns. -/
def desativarSucursal (id : String) (answer : Bool) (d : Dom) : Dom × List Effect :=
  if answer then
    match d.csrfValues with
    | [] =>
      (d, [.confirm "Tem certeza que deseja desativar esta sucursal?", .uncaught .typeError])
    | token :: _ =>
      (d, [.confirm "Tem certeza que deseja desativar esta sucursal?",
           fetch ("/admin/empresa/sucursal/" ++ id ++ "/desativar/")
             (some { method := some "POST", headers := [("X-CSRFToken", token)] })
             .desativarSucursal])
  else
    (d, [.confirm "Tem certeza que deseja desativar esta sucursal?"])

/-- Source lines 43-59; `answer` is what `confirm` returns. -/
def ativarSucursal (id : String) (answer : Bool) (d : Dom) : Dom × List Effect :=
  if answer then
    match d.csrfValues with
    | [] =>
      (d, [.confirm "Tem certeza que deseja ativar esta sucursal?", .uncaught .typeError])
    | token :: _ =>
      (d, [.confirm "Tem certeza que deseja ativar esta sucursal?",
           fetch ("/admin/empresa/sucursal/" ++ id ++ "/ativar/")
             (some { method := some "POST", headers := [("X-CSRFToken", token)] })
             .ativarSucursal])
  else
    (d, [.confirm "Tem certeza que deseja ativar esta sucursal?"])

/-- Source lines 62-66: the listener on `document`, given the class list of
the click's target. -/
def onClick (classList : List String) (d : Dom) : Dom × List Effect :=
  if classList.contains "modal-overlay" then hideSucursalForm d else (d, [])

/-- The two callbacks `html => { ... innerHTML = html }` (lines 6-8, 20-22),
where `html` is the body of the response `r`: the children of `#sucursalForm`
are replaced by the nodes the parser builds from that text; the elements named
`csrfmiddlewaretoken` among the old children leave the document, those among
the new ones enter it. -/
def injectForm (r : Response) (d : Dom) : Dom × List Effect :=
  match d.form with
  | none => (d, [.uncaught .typeError])
  | some _ => ({ d with form := some r.fragment }, [])

/-- The two callbacks `data => { if (data.success) location.reload() }`
(lines 35-39, 53-57). -/
def reloadOnSuccess (data : JSValue) (d : Dom) : Dom × List Effect :=
  match data.getProp "success" with
  | .error e => (d, [.uncaught e])
  | .ok v => if v.truthy then (d, [.reload]) else (d, [])

/-- The promise chain of each function, run on the response of its request. -/
def runCallback (cb : Callback) (r : Response) (d : Dom) : Dom × List Effect :=
  match cb with
  | .showSucursalForm => injectForm r d
  | .editSucursal => injectForm r d
  | .desativarSucursal =>
    match r.parsed with
    | none => (d, [.uncaught .syntaxError])
    | some data => reloadOnSuccess data d
  | .ativarSucursal =>
    match r.parsed with
    | none => (d, [.uncaught .syntaxError])
    | some data => reloadOnSuccess data d

/-! ## The event loop -/

/-- A call of one of the five handler functions, with its arguments. -/
inductive Call where
  | showSucursalForm
  | hideSucursalForm
  | editSucursal (id : String)
  | desativarSucursal (id : String) (answer : Bool)
  | ativarSucursal (id : String) (answer : Bool)
  deriving DecidableEq, Repr

/-- The five handler functions. -/
inductive Handler where
  | showSucursalForm
  | hideSucursalForm
  | editSucursal
  | desativarSucursal
  | ativarSucursal
  deriving DecidableEq, Repr

/-- The function a call invokes. -/
def Call.handler : Call → Handler
  | .showSucursalForm => .showSucursalForm
  | .hideSucursalForm => .hideSucursalForm
  | .editSucursal _ => .editSucursal
  | .desativarSucursal _ _ => .desativarSucursal
  | .ativarSucursal _ _ => .ativarSucursal

/-- Running a call on a document. -/
def Call.run : Call → Dom → Dom × List Effect
  | .showSucursalForm, d => SucursalAdmin.showSucursalForm d
  | .hideSucursalForm, d => SucursalAdmin.hideSucursalForm d
  | .editSucursal id, d => SucursalAdmin.editSucursal id d
  | .desativarSucursal id answer, d => SucursalAdmin.desativarSucursal id answer d
  | .ativarSucursal id answer, d => SucursalAdmin.ativarSucursal id answer d

/-- The requests a list of effects issues, each with its callback. -/
def fetchesOf : List Effect → List (Request × Callback)
  | [] => []
  | .fetch request callback :: rest => (request, callback) :: fetchesOf rest
  | _ :: rest => fetchesOf rest

/-- How many times a list of effects invokes `location.reload()`. -/
def reloadsOf : List Effect → Nat
  | [] => 0
  | .reload :: rest => reloadsOf rest + 1
  | _ :: rest => reloadsOf rest

/-- The page as the event loop sees it: the document, the requests in flight
(oldest first) and everything the script has done so far. -/
structure World where
  dom : Dom
  pending : List (Request × Callback)
  trace : List Effect
  deriving DecidableEq, Repr

/-- One turn of the event loop. -/
inductive Event where
  | call (c : Call)
  | click (classList : List String)
  | arrive (k : Nat) (r : Response)

/-- Takes over the result of a handler or callback: the new document, the
requests it issued, its effects. -/
def World.absorb (w : World) (result : Dom × List Effect) : World :=
  { dom := result.1
    pending := w.pending ++ fetchesOf result.2
    trace := w.trace ++ result.2 }

/-- Runs one event.  `arrive k r` delivers `r` to the `k`-th request in flight
and does nothing when there is no such request. -/
def step (w : World) : Event → World
  | .call c => w.absorb (c.run w.dom)
  | .click classList => w.absorb (onClick classList w.dom)
  | .arrive k r =>
    match w.pending.get? k with
    | none => w
    | some (_, cb) =>
      World.absorb { w with pending := w.pending.eraseIdx k } (runCallback cb r w.dom)

/-- Runs a sequence of events. -/
def run (w : World) (events : List Event) : World :=
  events.foldl step w

/-- An event of the form-loading race: a call of `showSucursalForm` or
`editSucursal`, or the arrival of a response. -/
def Event.isFormEvent : Event → Bool
  | .call .showSucursalForm => true
  | .call (.editSucursal _) => true
  | .arrive _ _ => true
  | _ => false

/-- A call of `showSucursalForm` or `editSucursal`. -/
def Event.isFormCall : Event → Bool
  | .call .showSucursalForm => true
  | .call (.editSucursal _) => true
  | _ => false

/-- The callback injects the response into `#sucursalForm`. -/
def Callback.isFormCallback : Callback → Bool
  | .showSucursalForm => true
  | .editSucursal => true
  | _ => false

/-- The handler can change the display of the modal: some call of it, on some
document, leaves `style.display` different from what it was. -/
def writesModal (h : Handler) : Prop :=
  ∃ (c : Call) (d : Dom), c.handler = h ∧ (c.run d).1.modalDisplay ≠ d.modalDisplay

/-- The invariant of the form-loading race: `#sucursalForm` is in the document
and every request in flight carries a callback that injects into it. -/
def FormRace (w : World) : Prop :=
  w.dom.form ≠ none ∧ ∀ p ∈ w.pending, p.2.isFormCallback = true

instance (w : World) : Decidable (FormRace w) := by
  unfold FormRace
  infer_instance

/-- The effect of `desativarSucursal` as `ativarSucursal` has it: the
activation message in place of the deactivation message, the activation URL
of `id` in place of its deactivation URL, the callback of `ativarSucursal` in
place of that of `desativarSucursal`; method, headers and every other effect
as they are. -/
def mirrorEffect (id : String) : Effect → Effect
  | .confirm message =>
    .confirm (if message = "Tem certeza que deseja desativar esta sucursal?"
      then "Tem certeza que deseja ativar esta sucursal?" else message)
  | .fetch request callback =>
    .fetch
      { request with
        url := if request.url = "/admin/empresa/sucursal/" ++ id ++ "/desativar/"
          then "/admin/empresa/sucursal/" ++ id ++ "/ativar/" else request.url }
      (if callback = .desativarSucursal then .ativarSucursal else callback)
  | e => e

/-- The effect of `showSucursalForm` as `editSucursal` has it: the change URL
of `id` in place of the add URL, the callback of `editSucursal` in place of
that of `showSucursalForm`. -/
def editEffect (id : String) : Effect → Effect
  | .fetch request callback =>
    .fetch
      { request with
        url := if request.url = "/admin/empresa/sucursal/add/?_to_field=id"
          then "/admin/empresa/sucursal/" ++ id ++ "/change/?_to_field=id" else request.url }
      (if callback = .showSucursalForm then .editSucursal else callback)
  | e => e

end SucursalAdmin

namespace SucursalAdmin

/-! ## Lemmas on effects and the event loop -/

theorem fetchesOf_append (a b : List Effect) :
    fetchesOf (a ++ b) = fetchesOf a ++ fetchesOf b := by
  induction a with
  | nil => rfl
  | cons e rest ih => cases e <;> simp [fetchesOf, ih]

theorem reloadsOf_append (a b : List Effect) :
    reloadsOf (a ++ b) = reloadsOf a + reloadsOf b := by
  induction a with
  | nil => simp [reloadsOf]
  | cons e rest ih =>
    cases e <;> simp [reloadsOf, ih]
    omega

theorem run_append (w : World) (a b : List Event) :
    run w (a ++ b) = run (run w a) b := by
  simp [run, List.foldl_append]

theorem run_cons (w : World) (e : Event) (rest : List Event) :
    run w (e :: rest) = run (step w e) rest := rfl

/-! ## Deactivation and activation -/

/-- C1: `desativarSucursal(id)` issues no request when the prompt is declined;
when it is accepted and the document has an element named
`csrfmiddlewaretoken`, it issues exactly one request: a `POST` to
`/admin/empresa/sucursal/<id>/desativar/` whose headers are `X-CSRFToken` with
the value of the first such element. -/
theorem desativarSucursal_request (id : String) (d : Dom) :
    fetchesOf (desativarSucursal id false d).2 = [] ∧
    ∀ token rest, d.csrfValues = token :: rest →
      fetchesOf (desativarSucursal id true d).2 =
        [({ url := "/admin/empresa/sucursal/" ++ id ++ "/desativar/"
            method := "POST"
            headers := [("X-CSRFToken", token)] }, .desativarSucursal)] := by
  refine ⟨by simp [desativarSucursal, fetchesOf], ?_⟩
  intro token rest h
  simp [desativarSucursal, h, fetch, fetchesOf]

/-- C1 at `desativarSucursal(42)` on a document with two token fields. -/
theorem desativarSucursal_request_witness :
    fetchesOf (desativarSucursal "42" false
        { modalDisplay := some "", form := some { innerHTML := "", csrfValues := [] }
          csrfBefore := ["tok", "other"], csrfAfter := [] }).2 = [] ∧
    fetchesOf (desativarSucursal "42" true
        { modalDisplay := some "", form := some { innerHTML := "", csrfValues := [] }
          csrfBefore := ["tok", "other"], csrfAfter := [] }).2 =
      [({ url := "/admin/empresa/sucursal/42/desativar/"
          method := "POST"
          headers := [("X-CSRFToken", "tok")] }, .desativarSucursal)] :=
  ⟨(desativarSucursal_request "42" _).1,
    (desativarSucursal_request "42" _).2 "tok" ["other"] rfl⟩

/-- C2: a confirmed `desativarSucursal(id)` whose response parses to `data`
invokes `location.reload()` exactly once when `data.success` is truthy and not
at all when it is falsy; the call itself invokes none. -/
theorem desativarSucursal_reload (id : String) (w : World) (token : String)
    (rest : List String) (r : Response) (data v : JSValue)
    (hcsrf : w.dom.csrfValues = token :: rest) (hdata : r.parsed = some data)
    (hv : data.getProp "success" = .ok v) :
    reloadsOf (step w (.call (.desativarSucursal id true))).trace = reloadsOf w.trace ∧
    (v.truthy = true →
      reloadsOf (step (step w (.call (.desativarSucursal id true)))
        (.arrive w.pending.length r)).trace = reloadsOf w.trace + 1) ∧
    (v.truthy = false →
      reloadsOf (step (step w (.call (.desativarSucursal id true)))
        (.arrive w.pending.length r)).trace = reloadsOf w.trace) := by
  have hcall : step w (.call (.desativarSucursal id true)) =
      { dom := w.dom
        pending := w.pending ++
          [({ url := "/admin/empresa/sucursal/" ++ id ++ "/desativar/"
              method := "POST"
              headers := [("X-CSRFToken", token)] }, .desativarSucursal)]
        trace := w.trace ++
          [.confirm "Tem certeza que deseja desativar esta sucursal?",
           .fetch { url := "/admin/empresa/sucursal/" ++ id ++ "/desativar/"
                    method := "POST"
                    headers := [("X-CSRFToken", token)] } .desativarSucursal] } := by
    simp [step, Call.run, desativarSucursal, hcsrf, World.absorb, fetch, fetchesOf]
  rw [hcall]
  refine ⟨by simp [reloadsOf_append, reloadsOf], ?_, ?_⟩
  · intro ht
    simp [step, runCallback, hdata, reloadOnSuccess, hv, ht, World.absorb,
      reloadsOf_append, reloadsOf]
  · intro hf
    simp [step, runCallback, hdata, reloadOnSuccess, hv, hf, World.absorb,
      reloadsOf_append, reloadsOf]

/-- C2 at the responses `{"success": true}` and `{"success": false}` to
`desativarSucursal(42)`: one reload, and none. -/
theorem desativarSucursal_reload_witness :
    reloadsOf (step (step
        { dom := { modalDisplay := some ""
                   form := some { innerHTML := "", csrfValues := [] }
                   csrfBefore := ["tok"], csrfAfter := [] }
          pending := [], trace := [] }
        (.call (.desativarSucursal "42" true)))
        (.arrive 0 { body := "", parsed := some (.obj [("success", .bool true)])
                     fragment := { innerHTML := "", csrfValues := [] } })).trace = 1 ∧
    reloadsOf (step (step
        { dom := { modalDisplay := some ""
                   form := some { innerHTML := "", csrfValues := [] }
                   csrfBefore := ["tok"], csrfAfter := [] }
          pending := [], trace := [] }
        (.call (.desativarSucursal "42" true)))
        (.arrive 0 { body := "", parsed := some (.obj [("success", .bool false)])
                     fragment := { innerHTML := "", csrfValues := [] } })).trace = 0 :=
  ⟨(desativarSucursal_reload "42"
      { dom := { modalDisplay := some ""
                 form := some { innerHTML := "", csrfValues := [] }
                 csrfBefore := ["tok"], csrfAfter := [] }
        pending := [], trace := [] } "tok" []
      { body := "", parsed := some (.obj [("success", .bool true)])
        fragment := { innerHTML := "", csrfValues := [] } }
      (.obj [("success", .bool true)]) (.bool true) rfl rfl rfl).2.1 rfl,
    (desativarSucursal_reload "42"
      { dom := { modalDisplay := some ""
                 form := some { innerHTML := "", csrfValues := [] }
                 csrfBefore := ["tok"], csrfAfter := [] }
        pending := [], trace := [] } "tok" []
      { body := "", parsed := some (.obj [("success", .bool false)])
        fragment := { innerHTML := "", csrfValues := [] } }
      (.obj [("success", .bool false)]) (.bool false) rfl rfl rfl).2.2 rfl⟩

/-- C3: `ativarSucursal(id)` does what `desativarSucursal(id)` does, for every
answer to the prompt and every document, with the activation message and the
activation URL in place of the deactivation ones (same document afterwards,
same effects in the same order, same method and headers); and its callback
treats every response as the callback of `desativarSucursal` does. -/
theorem ativarSucursal_mirrors (id : String) (answer : Bool) (d : Dom) :
    ativarSucursal id answer d =
      ((desativarSucursal id answer d).1,
        (desativarSucursal id answer d).2.map (mirrorEffect id)) ∧
    ∀ (r : Response) (d1 : Dom),
      runCallback .ativarSucursal r d1 = runCallback .desativarSucursal r d1 := by
  refine ⟨?_, fun r d1 => rfl⟩
  cases answer
  · simp [ativarSucursal, desativarSucursal, mirrorEffect]
  · cases hc : d.csrfValues with
    | nil => simp [ativarSucursal, desativarSucursal, mirrorEffect, hc]
    | cons token rest =>
      simp [ativarSucursal, desativarSucursal, mirrorEffect, hc, fetch]

/-- C10: without an element named `csrfmiddlewaretoken`, a confirmed
`desativarSucursal(id)` or `ativarSucursal(id)` shows the prompt and then
throws a `TypeError`: no request is issued, none is left in flight, no reload
is invoked, the document is unchanged. -/
theorem confirmed_without_csrf (id : String) (w : World) (h : w.dom.csrfValues = []) :
    desativarSucursal id true w.dom =
      (w.dom, [.confirm "Tem certeza que deseja desativar esta sucursal?",
               .uncaught .typeError]) ∧
    ativarSucursal id true w.dom =
      (w.dom, [.confirm "Tem certeza que deseja ativar esta sucursal?",
               .uncaught .typeError]) ∧
    (∀ c, c = Call.desativarSucursal id true ∨ c = Call.ativarSucursal id true →
      fetchesOf (c.run w.dom).2 = [] ∧
      (step w (.call c)).pending = w.pending ∧
      reloadsOf (step w (.call c)).trace = reloadsOf w.trace ∧
      (step w (.call c)).dom = w.dom) := by
  have hd : desativarSucursal id true w.dom =
      (w.dom, [.confirm "Tem certeza que deseja desativar esta sucursal?",
               .uncaught .typeError]) := by
    simp [desativarSucursal, h]
  have ha : ativarSucursal id true w.dom =
      (w.dom, [.confirm "Tem certeza que deseja ativar esta sucursal?",
               .uncaught .typeError]) := by
    simp [ativarSucursal, h]
  refine ⟨hd, ha, ?_⟩
  rintro c (rfl | rfl)
  · simp [step, Call.run, hd, World.absorb, fetchesOf, reloadsOf_append, reloadsOf]
  · simp [step, Call.run, ha, World.absorb, fetchesOf, reloadsOf_append, reloadsOf]

/-- C10 at `desativarSucursal(42)` and `ativarSucursal(42)` on a document
without a token field. -/
theorem confirmed_without_csrf_witness :
    fetchesOf (desativarSucursal "42" true
      { modalDisplay := some "block"
        form := some { innerHTML := "", csrfValues := [] }
        csrfBefore := [], csrfAfter := [] }).2 = [] ∧
    fetchesOf (ativarSucursal "42" true
      { modalDisplay := some "block"
        form := some { innerHTML := "", csrfValues := [] }
        csrfBefore := [], csrfAfter := [] }).2 = [] :=
  ⟨((confirmed_without_csrf "42"
      { dom := { modalDisplay := some "block"
                 form := some { innerHTML := "", csrfValues := [] }
                 csrfBefore := [], csrfAfter := [] }
        pending := [], trace := [] } rfl).2.2 _ (Or.inl rfl)).1,
    ((confirmed_without_csrf "42"
      { dom := { modalDisplay := some "block"
                 form := some { innerHTML := "", csrfValues := [] }
                 csrfBefore := [], csrfAfter := [] }
        pending := [], trace := [] } rfl).2.2 _ (Or.inr rfl)).1⟩

/-! ## The modal and the form -/

/-- C4, as stated, fails: after `showSucursalForm()` and the arrival of the
response whose body is `<form>`, the `innerHTML` of `#sucursalForm` is
`<form></form>`, which is not the body. -/
theorem showSucursalForm_innerHTML_not_body :
    (step (step
        { dom := { modalDisplay := some "none"
                   form := some { innerHTML := "", csrfValues := [] }
                   csrfBefore := [], csrfAfter := [] }
          pending := [], trace := [] }
        (.call .showSucursalForm))
        (.arrive 0
          { body := "<form>", parsed := none
            fragment := { innerHTML := "<form></form>", csrfValues := [] } })).dom.formHTML =
      some "<form></form>" ∧
    (step (step
        { dom := { modalDisplay := some "none"
                   form := some { innerHTML := "", csrfValues := [] }
                   csrfBefore := [], csrfAfter := [] }
          pending := [], trace := [] }
        (.call .showSucursalForm))
        (.arrive 0
          { body := "<form>", parsed := none
            fragment := { innerHTML := "<form></form>", csrfValues := [] } })).dom.formHTML ≠
      some "<form>" := by
  decide

/-- C4, amended: on a document with the modal, `showSucursalForm()` sets its
display to `block` and issues exactly one request, a `GET` to
`/admin/empresa/sucursal/add/?_to_field=id`, and nothing else; when the
response of that request arrives with body `html`, the children of
`#sucursalForm` become the nodes `html` parses to, so that `innerHTML` reads
back their serialisation, which is `html` when `html` is in serialised form. -/
theorem showSucursalForm_spec (w : World) (v : String) (hmodal : w.dom.modalDisplay = some v) :
    showSucursalForm w.dom =
      ({ w.dom with modalDisplay := some "block" },
        [.fetch { url := "/admin/empresa/sucursal/add/?_to_field=id"
                  method := "GET", headers := [] } .showSucursalForm]) ∧
    (step w (.call .showSucursalForm)).pending =
      w.pending ++ [({ url := "/admin/empresa/sucursal/add/?_to_field=id"
                       method := "GET", headers := [] }, .showSucursalForm)] ∧
    ∀ (r : Response) (old : Fragment), w.dom.form = some old →
      (step (step w (.call .showSucursalForm)) (.arrive w.pending.length r)).dom.form =
        some r.fragment ∧
      (step (step w (.call .showSucursalForm)) (.arrive w.pending.length r)).dom.formHTML =
        some r.fragment.innerHTML ∧
      (r.fragment.innerHTML = r.body →
        (step (step w (.call .showSucursalForm)) (.arrive w.pending.length r)).dom.formHTML =
          some r.body) := by
  have hshow : showSucursalForm w.dom =
      ({ w.dom with modalDisplay := some "block" },
        [.fetch { url := "/admin/empresa/sucursal/add/?_to_field=id"
                  method := "GET", headers := [] } .showSucursalForm]) := by
    simp [showSucursalForm, hmodal, fetch]
  refine ⟨hshow, ?_, ?_⟩
  · simp [step, Call.run, hshow, World.absorb, fetchesOf]
  · intro r old hform
    have hdom :
        (step (step w (.call .showSucursalForm)) (.arrive w.pending.length r)).dom =
          { w.dom with modalDisplay := some "block", form := some r.fragment } := by
      simp [step, Call.run, hshow, World.absorb, fetchesOf, runCallback, injectForm, hform]
    rw [hdom]
    refine ⟨rfl, rfl, fun h => ?_⟩
    simp [Dom.formHTML, h]

/-- C4, amended, at a hidden modal with nothing in flight and the response
`<form>`, whose `form` element holds a token field. -/
theorem showSucursalForm_spec_witness :
    (step (step
        { dom := { modalDisplay := some "none"
                   form := some { innerHTML := "", csrfValues := [] }
                   csrfBefore := [], csrfAfter := [] }
          pending := [], trace := [] }
        (.call .showSucursalForm))
        (.arrive 0
          { body := "<form><input name=csrfmiddlewaretoken value=t>"
            parsed := none
            fragment :=
              { innerHTML := "<form><input name=\"csrfmiddlewaretoken\" value=\"t\"></form>"
                csrfValues := ["t"] } })).dom.form =
      some { innerHTML := "<form><input name=\"csrfmiddlewaretoken\" value=\"t\"></form>"
             csrfValues := ["t"] } :=
  ((showSucursalForm_spec
    { dom := { modalDisplay := some "none"
               form := some { innerHTML := "", csrfValues := [] }
               csrfBefore := [], csrfAfter := [] }
      pending := [], trace := [] } "none" rfl).2.2
    { body := "<form><input name=csrfmiddlewaretoken value=t>"
      parsed := none
      fragment :=
        { innerHTML := "<form><input name=\"csrfmiddlewaretoken\" value=\"t\"></form>"
          csrfValues := ["t"] } }
    { innerHTML := "", csrfValues := [] } rfl).1

/-- C5, as stated, fails: after `editSucursal(7)` and the arrival of the
response whose body is `<form>`, the `innerHTML` of `#sucursalForm` is
`<form></form>`, which is not the body. -/
theorem editSucursal_innerHTML_not_body :
    (step (step
        { dom := { modalDisplay := some "none"
                   form := some { innerHTML := "", csrfValues := [] }
                   csrfBefore := [], csrfAfter := [] }
          pending := [], trace := [] }
        (.call (.editSucursal "7")))
        (.arrive 0
          { body := "<form>", parsed := none
            fragment := { innerHTML := "<form></form>", csrfValues := [] } })).dom.formHTML =
      some "<form></form>" ∧
    (step (step
        { dom := { modalDisplay := some "none"
                   form := some { innerHTML := "", csrfValues := [] }
                   csrfBefore := [], csrfAfter := [] }
          pending := [], trace := [] }
        (.call (.editSucursal "7")))
        (.arrive 0
          { body := "<form>", parsed := none
            fragment := { innerHTML := "<form></form>", csrfValues := [] } })).dom.formHTML ≠
      some "<form>" := by
  decide

/-- C5, amended: `editSucursal(id)` does what `showSucursalForm()` does with
the change URL of `id` in place of the add URL; on a document with the modal it
sets the display to `block` and issues exactly one request, a `GET` to
`/admin/empresa/sucursal/<id>/change/?_to_field=id`; when the response of that
request arrives with body `html`, the children of `#sucursalForm` become the
nodes `html` parses to, so that `innerHTML` reads back their serialisation,
which is `html` when `html` is in serialised form. -/
theorem editSucursal_spec (id : String) (w : World) (v : String)
    (hmodal : w.dom.modalDisplay = some v) :
    editSucursal id w.dom =
      ((showSucursalForm w.dom).1, (showSucursalForm w.dom).2.map (editEffect id)) ∧
    (∀ (r : Response) (d : Dom),
      runCallback .editSucursal r d = runCallback .showSucursalForm r d) ∧
    editSucursal id w.dom =
      ({ w.dom with modalDisplay := some "block" },
        [.fetch { url := "/admin/empresa/sucursal/" ++ id ++ "/change/?_to_field=id"
                  method := "GET", headers := [] } .editSucursal]) ∧
    ∀ (r : Response) (old : Fragment), w.dom.form = some old →
      (step (step w (.call (.editSucursal id))) (.arrive w.pending.length r)).dom.form =
        some r.fragment ∧
      (step (step w (.call (.editSucursal id))) (.arrive w.pending.length r)).dom.formHTML =
        some r.fragment.innerHTML ∧
      (r.fragment.innerHTML = r.body →
        (step (step w (.call (.editSucursal id))) (.arrive w.pending.length r)).dom.formHTML =
          some r.body) := by
  have hedit : editSucursal id w.dom =
      ({ w.dom with modalDisplay := some "block" },
        [.fetch { url := "/admin/empresa/sucursal/" ++ id ++ "/change/?_to_field=id"
                  method := "GET", headers := [] } .editSucursal]) := by
    simp [editSucursal, hmodal, fetch]
  refine ⟨?_, fun r d => rfl, hedit, ?_⟩
  · simp [editSucursal, showSucursalForm, hmodal, fetch, editEffect]
  · intro r old hform
    have hdom :
        (step (step w (.call (.editSucursal id))) (.arrive w.pending.length r)).dom =
          { w.dom with modalDisplay := some "block", form := some r.fragment } := by
      simp [step, Call.run, hedit, World.absorb, fetchesOf, runCallback, injectForm, hform]
    rw [hdom]
    refine ⟨rfl, rfl, fun h => ?_⟩
    simp [Dom.formHTML, h]

/-- C5, amended, at `editSucursal(7)` with a request already in flight and a
response in serialised form. -/
theorem editSucursal_spec_witness :
    (step
        { dom := { modalDisplay := some "none"
                   form := some { innerHTML := "", csrfValues := [] }
                   csrfBefore := [], csrfAfter := [] }
          pending := [({ url := "/admin/empresa/sucursal/add/?_to_field=id"
                         method := "GET", headers := [] }, .showSucursalForm)]
          trace := [] }
        (.call (.editSucursal "7"))).pending =
      [({ url := "/admin/empresa/sucursal/add/?_to_field=id"
          method := "GET", headers := [] }, .showSucursalForm),
       ({ url := "/admin/empresa/sucursal/7/change/?_to_field=id"
          method := "GET", headers := [] }, .editSucursal)] ∧
    (step (step
        { dom := { modalDisplay := some "none"
                   form := some { innerHTML := "", csrfValues := [] }
                   csrfBefore := [], csrfAfter := [] }
          pending := [({ url := "/admin/empresa/sucursal/add/?_to_field=id"
                         method := "GET", headers := [] }, .showSucursalForm)]
          trace := [] }
        (.call (.editSucursal "7")))
        (.arrive 1
          { body := "<form></form>", parsed := none
            fragment := { innerHTML := "<form></form>", csrfValues := [] } })).dom.formHTML =
      some "<form></form>" :=
  ⟨by decide,
    ((editSucursal_spec "7"
      { dom := { modalDisplay := some "none"
                 form := some { innerHTML := "", csrfValues := [] }
                 csrfBefore := [], csrfAfter := [] }
        pending := [({ url := "/admin/empresa/sucursal/add/?_to_field=id"
                       method := "GET", headers := [] }, .showSucursalForm)]
        trace := [] } "none" rfl).2.2.2
      { body := "<form></form>", parsed := none
        fragment := { innerHTML := "<form></form>", csrfValues := [] } }
      { innerHTML := "", csrfValues := [] } rfl).2.2 rfl⟩

/-- C6: `hideSucursalForm()` sets the display of the modal to `none` whatever
it was, changes nothing else in the document and has no effect at all (no
request, no reload); a second call yields what the first one did. -/
theorem hideSucursalForm_spec (w : World) (v : String) (hmodal : w.dom.modalDisplay = some v) :
    hideSucursalForm w.dom = ({ w.dom with modalDisplay := some "none" }, []) ∧
    step w (.call .hideSucursalForm) =
      { w with dom := { w.dom with modalDisplay := some "none" } } ∧
    hideSucursalForm (hideSucursalForm w.dom).1 = hideSucursalForm w.dom ∧
    step (step w (.call .hideSucursalForm)) (.call .hideSucursalForm) =
      step w (.call .hideSucursalForm) := by
  have hhide : hideSucursalForm w.dom = ({ w.dom with modalDisplay := some "none" }, []) := by
    simp [hideSucursalForm, hmodal]
  have hstep : step w (.call .hideSucursalForm) =
      { w with dom := { w.dom with modalDisplay := some "none" } } := by
    simp [step, Call.run, hhide, World.absorb, fetchesOf]
  refine ⟨hhide, hstep, ?_, ?_⟩
  · rw [hhide]
    simp [hideSucursalForm]
  · rw [hstep]
    simp [step, Call.run, hideSucursalForm, World.absorb, fetchesOf]

/-- C6 at a visible modal with a request in flight. -/
theorem hideSucursalForm_spec_witness :
    step
        { dom := { modalDisplay := some "block"
                   form := some { innerHTML := "<form>", csrfValues := [] }
                   csrfBefore := ["t"], csrfAfter := [] }
          pending := [({ url := "/admin/empresa/sucursal/add/?_to_field=id"
                         method := "GET", headers := [] }, .showSucursalForm)]
          trace := [] }
        (.call .hideSucursalForm) =
      { dom := { modalDisplay := some "none"
                 form := some { innerHTML := "<form>", csrfValues := [] }
                 csrfBefore := ["t"], csrfAfter := [] }
        pending := [({ url := "/admin/empresa/sucursal/add/?_to_field=id"
                       method := "GET", headers := [] }, .showSucursalForm)]
        trace := [] } :=
  (hideSucursalForm_spec
    { dom := { modalDisplay := some "block"
               form := some { innerHTML := "<form>", csrfValues := [] }
               csrfBefore := ["t"], csrfAfter := [] }
      pending := [({ url := "/admin/empresa/sucursal/add/?_to_field=id"
                     method := "GET", headers := [] }, .showSucursalForm)]
      trace := [] } "block" rfl).2.1

/-- C7: a click whose target has the class `modal-overlay` leaves the display
of the modal at `none`; a click on any other target leaves the document as it
was and has no effect. -/
theorem onClick_spec (classList : List String) (d : Dom) :
    ("modal-overlay" ∈ classList → ∀ v, d.modalDisplay = some v →
      (onClick classList d).1.modalDisplay = some "none") ∧
    ("modal-overlay" ∉ classList → onClick classList d = (d, [])) := by
  constructor
  · intro hmem v hv
    simp [onClick, hmem, hideSucursalForm, hv]
  · intro hmem
    simp [onClick, hmem]

/-- C7 at a click on the overlay and a click on a button, modal visible. -/
theorem onClick_spec_witness :
    (onClick ["modal-overlay", "fade"]
      { modalDisplay := some "block"
        form := some { innerHTML := "", csrfValues := [] }
        csrfBefore := [], csrfAfter := [] }).1.modalDisplay =
      some "none" ∧
    (onClick ["btn"]
      { modalDisplay := some "block"
        form := some { innerHTML := "", csrfValues := [] }
        csrfBefore := [], csrfAfter := [] }).1.modalDisplay =
      some "block" :=
  ⟨(onClick_spec ["modal-overlay", "fade"] _).1 (by decide) "block" rfl,
    congrArg (fun p => p.1.modalDisplay) ((onClick_spec ["btn"]
      { modalDisplay := some "block"
        form := some { innerHTML := "", csrfValues := [] }
        csrfBefore := [], csrfAfter := [] }).2 (by decide))⟩

/-- No call of `desativarSucursal` changes the display of the modal. -/
theorem not_writesModal_desativarSucursal : ¬ writesModal .desativarSucursal := by
  rintro ⟨c, d, hc, hne⟩
  cases c <;> simp [Call.handler] at hc
  rename_i id answer
  apply hne
  cases answer
  · simp [Call.run, desativarSucursal]
  · cases hcs : d.csrfValues <;> simp [Call.run, desativarSucursal, hcs]

/-- No call of `ativarSucursal` changes the display of the modal. -/
theorem not_writesModal_ativarSucursal : ¬ writesModal .ativarSucursal := by
  rintro ⟨c, d, hc, hne⟩
  cases c <;> simp [Call.handler] at hc
  rename_i id answer
  apply hne
  cases answer
  · simp [Call.run, ativarSucursal]
  · cases hcs : d.csrfValues <;> simp [Call.run, ativarSucursal, hcs]

/-- C8, as stated, fails: no handler is the only one of the five that leaves
the display of the modal alone, since both `desativarSucursal` and
`ativarSucursal` do. -/
theorem not_four_handlers_write_modal :
    ¬ ∃ h0 : Handler, ¬ writesModal h0 ∧ ∀ h, h ≠ h0 → writesModal h := by
  rintro ⟨h0, -, hall⟩
  by_cases h : h0 = .desativarSucursal
  · exact not_writesModal_ativarSucursal (hall _ (by rw [h]; decide))
  · exact not_writesModal_desativarSucursal (hall _ (fun e => h e.symm))

/-- C8, amended: the handlers that can change the display of the modal are
exactly `showSucursalForm`, `hideSucursalForm` and `editSucursal`;
`desativarSucursal` and `ativarSucursal` leave it as it is on every input; and
a call leaves the display as it was, at `block` or at `none`. -/
theorem three_handlers_write_modal :
    (∀ h : Handler, writesModal h ↔
      h = .showSucursalForm ∨ h = .hideSucursalForm ∨ h = .editSucursal) ∧
    (∀ (id : String) (answer : Bool) (d : Dom),
      (desativarSucursal id answer d).1.modalDisplay = d.modalDisplay ∧
      (ativarSucursal id answer d).1.modalDisplay = d.modalDisplay) ∧
    ∀ (c : Call) (d : Dom),
      (c.run d).1.modalDisplay = d.modalDisplay ∨
      (c.run d).1.modalDisplay = some "block" ∨
      (c.run d).1.modalDisplay = some "none" := by
  refine ⟨?_, ?_, ?_⟩
  · intro h
    constructor
    · intro hw
      cases h
      · exact Or.inl rfl
      · exact Or.inr (Or.inl rfl)
      · exact Or.inr (Or.inr rfl)
      · exact absurd hw not_writesModal_desativarSucursal
      · exact absurd hw not_writesModal_ativarSucursal
    · rintro (rfl | rfl | rfl)
      · exact ⟨.showSucursalForm, { modalDisplay := some ""
                                    form := none
                                    csrfBefore := [], csrfAfter := [] },
          rfl, by decide⟩
      · exact ⟨.hideSucursalForm, { modalDisplay := some ""
                                    form := none
                                    csrfBefore := [], csrfAfter := [] },
          rfl, by decide⟩
      · exact ⟨.editSucursal "1", { modalDisplay := some ""
                                    form := none
                                    csrfBefore := [], csrfAfter := [] },
          rfl, by decide⟩
  · intro id answer d
    constructor
    · cases answer
      · simp [desativarSucursal]
      · cases hcs : d.csrfValues <;> simp [desativarSucursal, hcs]
    · cases answer
      · simp [ativarSucursal]
      · cases hcs : d.csrfValues <;> simp [ativarSucursal, hcs]
  · intro c d
    cases c with
    | showSucursalForm =>
      cases hm : d.modalDisplay <;> simp [Call.run, showSucursalForm, hm]
    | hideSucursalForm =>
      cases hm : d.modalDisplay <;> simp [Call.run, hideSucursalForm, hm]
    | editSucursal id =>
      cases hm : d.modalDisplay <;> simp [Call.run, editSucursal, hm]
    | desativarSucursal id answer =>
      left
      cases answer
      · simp [Call.run, desativarSucursal]
      · cases hcs : d.csrfValues <;> simp [Call.run, desativarSucursal, hcs]
    | ativarSucursal id answer =>
      left
      cases answer
      · simp [Call.run, ativarSucursal]
      · cases hcs : d.csrfValues <;> simp [Call.run, ativarSucursal, hcs]

/-! ## The race of the form requests -/

/-- A call of `showSucursalForm` or `editSucursal` keeps the content of the
form, keeps every request in flight and adds only form requests. -/
theorem step_formCall (w : World) (e : Event) (he : e.isFormCall = true) :
    (step w e).dom.form = w.dom.form ∧
    (∃ added, (step w e).pending = w.pending ++ added ∧
      ∀ p ∈ added, p.2.isFormCallback = true) := by
  cases e with
  | click classList => simp [Event.isFormCall] at he
  | arrive k r => simp [Event.isFormCall] at he
  | call c =>
    cases c with
    | hideSucursalForm => simp [Event.isFormCall] at he
    | desativarSucursal id answer => simp [Event.isFormCall] at he
    | ativarSucursal id answer => simp [Event.isFormCall] at he
    | showSucursalForm =>
      cases hm : w.dom.modalDisplay <;>
        simp [step, Call.run, showSucursalForm, hm, World.absorb, fetchesOf, fetch,
          Callback.isFormCallback]
    | editSucursal id =>
      cases hm : w.dom.modalDisplay <;>
        simp [step, Call.run, editSucursal, hm, World.absorb, fetchesOf, fetch,
          Callback.isFormCallback]

/-- The arrival of a response for the request at `k` runs its callback. -/
theorem step_arrive_some (w : World) (k : Nat) (r : Response) (req : Request) (cb : Callback)
    (h : w.pending.get? k = some (req, cb)) :
    step w (.arrive k r) =
      World.absorb { w with pending := w.pending.eraseIdx k } (runCallback cb r w.dom) := by
  simp only [step, h]

/-- The arrival of a response for no request in flight does nothing. -/
theorem step_arrive_none (w : World) (k : Nat) (r : Response)
    (h : w.pending.get? k = none) : step w (.arrive k r) = w := by
  simp only [step, h]

/-- In the race, the request at a valid position carries a form callback. -/
theorem formRace_get (w : World) (k : Nat) (hw : FormRace w) (hk : k < w.pending.length) :
    ∃ req cb, w.pending.get? k = some (req, cb) ∧ cb.isFormCallback = true :=
  ⟨(w.pending.get ⟨k, hk⟩).1, (w.pending.get ⟨k, hk⟩).2, List.get?_eq_get hk,
    hw.2 _ (List.get_mem w.pending k hk)⟩

/-- A form callback makes the nodes parsed from the response the content of the
form, when the form is there, and has no effect. -/
theorem runCallback_form (cb : Callback) (r : Response) (d : Dom) (old : Fragment)
    (hcb : cb.isFormCallback = true) (hold : d.form = some old) :
    runCallback cb r d = ({ d with form := some r.fragment }, []) := by
  cases cb <;> simp [Callback.isFormCallback] at hcb <;>
    simp [runCallback, injectForm, hold]

/-- The arrival of a response for a request in flight, in the race, makes the
nodes parsed from its body the content of the form. -/
theorem step_arrive (w : World) (k : Nat) (r : Response) (hw : FormRace w)
    (hk : k < w.pending.length) :
    (step w (.arrive k r)).dom.form = some r.fragment := by
  obtain ⟨req, cb, hget, hcb⟩ := formRace_get w k hw hk
  obtain ⟨old, hold⟩ := Option.isSome_iff_exists.mp (Option.ne_none_iff_isSome.mp hw.1)
  rw [step_arrive_some w k r req cb hget, runCallback_form cb r w.dom old hcb hold]
  rfl

/-- The invariant of the race holds after every event of the race. -/
theorem step_formRace (w : World) (e : Event) (hw : FormRace w) (he : e.isFormEvent = true) :
    FormRace (step w e) := by
  cases e with
  | click classList => simp [Event.isFormEvent] at he
  | call c =>
    have hc : (Event.call c).isFormCall = true := by
      cases c <;> simp [Event.isFormEvent] at he <;> rfl
    obtain ⟨hform, added, hadd, hcb⟩ := step_formCall w _ hc
    refine ⟨by rw [hform]; exact hw.1, ?_⟩
    intro p hp
    rw [hadd, List.mem_append] at hp
    rcases hp with hp | hp
    · exact hw.2 p hp
    · exact hcb p hp
  | arrive k r =>
    by_cases hk : k < w.pending.length
    · refine ⟨by rw [step_arrive w k r hw hk]; simp, ?_⟩
      obtain ⟨req, cb, hget, hcb⟩ := formRace_get w k hw hk
      obtain ⟨old, hold⟩ := Option.isSome_iff_exists.mp (Option.ne_none_iff_isSome.mp hw.1)
      rw [step_arrive_some w k r req cb hget, runCallback_form cb r w.dom old hcb hold]
      intro q hq
      have hq2 : q ∈ w.pending.eraseIdx k := by
        simpa [World.absorb, fetchesOf] using hq
      exact hw.2 q (List.mem_of_mem_eraseIdx hq2)
    · rw [step_arrive_none w k r (List.get?_eq_none.mpr (Nat.le_of_not_lt hk))]
      exact hw

/-- The invariant of the race holds after every sequence of its events. -/
theorem run_formRace (events : List Event) (w : World) (hw : FormRace w)
    (he : ∀ e ∈ events, e.isFormEvent = true) : FormRace (run w events) := by
  induction events generalizing w with
  | nil => exact hw
  | cons e rest ih =>
    rw [run_cons]
    exact ih _ (step_formRace w e hw (he e (List.mem_cons_self _ _)))
      (fun x hx => he x (List.mem_cons_of_mem _ hx))

/-- Calls of `showSucursalForm` and `editSucursal` keep the content of the
form. -/
theorem run_formCalls (events : List Event) (w : World)
    (he : ∀ e ∈ events, e.isFormCall = true) :
    (run w events).dom.form = w.dom.form := by
  induction events generalizing w with
  | nil => rfl
  | cons e rest ih =>
    rw [run_cons, ih _ (fun x hx => he x (List.mem_cons_of_mem _ hx))]
    exact (step_formCall w e (he e (List.mem_cons_self _ _))).1

/-- C9: a call of `showSucursalForm` or `editSucursal` leaves every earlier
request in flight; and in every run of such calls and arrivals of responses,
in any order, from a document with `#sucursalForm`, the content of the form
after the last arrival is that of the response that arrived last: the nodes
its body parses to, whose serialisation `innerHTML` reads back (the body
itself when the body is in serialised form). -/
theorem last_response_wins :
    (∀ (w : World) (e : Event), e.isFormCall = true →
      ∃ added, (step w e).pending = w.pending ++ added) ∧
    ∀ (w : World) (before after : List Event) (k : Nat) (r : Response),
      FormRace w →
      (∀ e ∈ before, e.isFormEvent = true) →
      k < (run w before).pending.length →
      (∀ e ∈ after, e.isFormCall = true) →
      (run w (before ++ .arrive k r :: after)).dom.form = some r.fragment ∧
      (run w (before ++ .arrive k r :: after)).dom.formHTML = some r.fragment.innerHTML ∧
      (r.fragment.innerHTML = r.body →
        (run w (before ++ .arrive k r :: after)).dom.formHTML = some r.body) := by
  constructor
  · intro w e he
    obtain ⟨-, added, hadd, -⟩ := step_formCall w e he
    exact ⟨added, hadd⟩
  · intro w before after k r hw hbefore hk hafter
    have hform : (run w (before ++ .arrive k r :: after)).dom.form = some r.fragment := by
      rw [run_append, run_cons, run_formCalls after _ hafter]
      exact step_arrive _ k r (run_formRace before w hw hbefore) hk
    exact ⟨hform, by simp [Dom.formHTML, hform], fun h => by simp [Dom.formHTML, hform, h]⟩

/-- C9 at `editSucursal(1)` then `editSucursal(2)`, the response of the second
arriving first: the form ends with the response of the first. -/
theorem last_response_wins_witness :
    (run
      { dom := { modalDisplay := some "none"
                 form := some { innerHTML := "", csrfValues := [] }
                 csrfBefore := [], csrfAfter := [] }
        pending := [], trace := [] }
      [.call (.editSucursal "1"), .call (.editSucursal "2"),
       .arrive 1 { body := "form 2", parsed := none
                   fragment := { innerHTML := "form 2", csrfValues := [] } },
       .arrive 0 { body := "form 1", parsed := none
                   fragment := { innerHTML := "form 1", csrfValues := [] } }]).dom.formHTML =
      some "form 1" :=
  (last_response_wins.2
    { dom := { modalDisplay := some "none"
               form := some { innerHTML := "", csrfValues := [] }
               csrfBefore := [], csrfAfter := [] }
      pending := [], trace := [] }
    [.call (.editSucursal "1"), .call (.editSucursal "2"),
     .arrive 1 { body := "form 2", parsed := none
                 fragment := { innerHTML := "form 2", csrfValues := [] } }]
    [] 0 { body := "form 1", parsed := none
           fragment := { innerHTML := "form 1", csrfValues := [] } }
    (by decide) (by decide) (by decide) (by decide)).2.1

end SucursalAdmin
